import Mathlib

/-
Verification of src/bing_wallpaper_scrapper.py (class BingWallpaperScraper).

The embedding models the three stages of the scraper:

* name derivation (lines 149-157 of get_image_urls): Python string and
  os.path operations are embedded over List Char;
* download_image_with_retry (lines 187-238): the file system is a map from
  path to file content, and the behavior of the network (requests.get plus
  the streaming write) at each attempt is an explicit oracle;
* download_images (lines 240-263) and get_image_urls (lines 60-185): the
  thread pool completion order, the WebDriver, the listing selectors and the
  per-thumbnail detail pages are explicit oracles.

Effects that the Python code only logs (logger.info and friends) are not
modelled; observable state (return values, files written, network attempts
issued, detail tabs opened, driver teardown) is.
-/

/-! ## Name derivation (get_image_urls, lines 149-157) -/

/-- Python os.path.basename: the part of the string after the last slash
(posixpath.basename, i.e. p[p.rfind(sep)+1:]). -/
def basenameL (p : List Char) : List Char :=
  (p.reverse.takeWhile (fun c => c ≠ '/')).reverse

/-- The extension component of Python os.path.splitext applied to a string
with no path separator (the code always applies it to a basename): the
suffix starting at the last dot, unless every character before that dot is
itself a dot (leading dots do not begin an extension), in which case the
extension is empty. -/
def splitextExtL (b : List Char) : List Char :=
  let rev := b.reverse
  let after := rev.takeWhile (fun c => c ≠ '.')
  match rev.dropWhile (fun c => c ≠ '.') with
  | [] => []
  | _dot :: beforeRev =>
      if beforeRev.any (fun c => c ≠ '.') then '.' :: after.reverse else []

/-- The sanitization applied in line 149-153:
.replace("/", "_").replace(":", "_"). Both replacements act on single
characters, so they amount to one character map. -/
def sanitizeL (l : List Char) : List Char :=
  l.map (fun c => if c = '/' ∨ c = ':' then '_' else c)

/-- Line 149-153: clean_image_name = basename(image_page_url) with "/" and
":" replaced by "_". -/
def clean_image_name (detailUrl : List Char) : List Char :=
  sanitizeL (basenameL detailUrl)

/-- Lines 154-156: image_ext = splitext(basename(image_url))[1] or ".jpg";
the empty string is falsy in Python, so an empty extension falls back to
".jpg". -/
def image_ext (assetUrl : List Char) : List Char :=
  let e := splitextExtL (basenameL assetUrl)
  if e = [] then ".jpg".toList else e

/-- Line 157: full_image_name = clean_image_name + image_ext. -/
def full_image_name (detailUrl assetUrl : List Char) : List Char :=
  clean_image_name detailUrl ++ image_ext assetUrl

/-- full_image_name on Lean strings. -/
def fullImageNameS (d a : String) : String :=
  ⟨full_image_name d.toList a.toList⟩

/-! ## File system model -/

/-- File system: a map from path to file content (none = no such file). -/
abbrev Fs := String → Option String

/-- Python os.path.exists (line 207). -/
def fileExists (fs : Fs) (p : String) : Bool :=
  (fs p).isSome

/-- Python open(path, "wb") followed by writing content c (lines 222-224):
the file at p now holds exactly c, other paths are untouched. -/
def writeFile (fs : Fs) (p c : String) : Fs :=
  fun q => if q = p then some c else fs q

/-- Reading a file back, for stating what is on disk. -/
def readFile (fs : Fs) (p : String) : Option String :=
  fs p

/-- The empty file system. -/
def emptyFs : Fs :=
  fun _ => none

/-! ## download_image_with_retry (lines 187-238) -/

/-- Behavior of one network attempt (requests.get + raise_for_status + the
chunked write, lines 214-224) for the given URL:

* fail err: requests.get raises, or raise_for_status raises on a non-2xx
  status; nothing is written to disk;
* body content: a 2xx response whose body streams completely into the
  output file;
* interrupted written: a 2xx response whose streaming write raises partway
  through, after the bytes `written` have already been flushed to the
  output path. -/
inductive NetResult where
  | fail (err : String)
  | body (content : String)
  | interrupted (written : String)
deriving Repr, DecidableEq

/-- Result of one download_image_with_retry call: `outcome` is the value
returned to the Python caller (the tuple (success, image_name)); `fs` is
the file system afterwards; `netAttempts` counts how many times
requests.get was actually issued (instrumentation; the Python code has no
such counter in its return value). -/
structure DlResult where
  outcome : Bool × String
  fs : Fs
  netAttempts : Nat

/-- The retry loop of lines 204-238. `remaining` is the number of loop
iterations left (max_retries - attempt); every iteration re-checks
existence of the output path (line 207) before touching the network. A
fail attempt sleeps and retries; a body attempt writes the full content
and returns (True, name); an interrupted attempt leaves the partial
content at the output path (the code opens the final path directly, line
222) and the exception is caught at line 229, so the loop retries. When
the loop exhausts, lines 235-238 return (False, name). -/
def attemptLoop (imageName outputPath : String) (s : Nat → NetResult)
    (attempt remaining : Nat) (fs : Fs) : DlResult :=
  match remaining with
  | 0 => ⟨(false, imageName), fs, 0⟩
  | r + 1 =>
      if fileExists fs outputPath then ⟨(true, imageName), fs, 0⟩
      else
        match s attempt with
        | .fail _ =>
            let t := attemptLoop imageName outputPath s (attempt + 1) r fs
            ⟨t.outcome, t.fs, t.netAttempts + 1⟩
        | .body c =>
            ⟨(true, imageName), writeFile fs outputPath c, 1⟩
        | .interrupted w =>
            let t := attemptLoop imageName outputPath s (attempt + 1) r
              (writeFile fs outputPath w)
            ⟨t.outcome, t.fs, t.netAttempts + 1⟩

/-- Line 202: output_path = os.path.join(download_dir, month, image_name)
(the components carry no trailing separators, so join is concatenation
with "/"). -/
def outputPathOf (downloadDir month imageName : String) : String :=
  downloadDir ++ "/" ++ month ++ "/" ++ imageName

/-- download_image_with_retry (lines 187-238). `script url i` is what the
network and the streaming write do on the i-th attempt for `url`. The
month directory creation of line 200 has no observable effect in this
model (directories are implicit). -/
def download_image_with_retry (downloadDir imageName imageUrl month : String)
    (script : String → Nat → NetResult) (maxRetries : Nat) (fs : Fs) : DlResult :=
  attemptLoop imageName (outputPathOf downloadDir month imageName)
    (script imageUrl) 0 maxRetries fs

/-! ## download_images (lines 240-263) -/

/-- The per-future results in submission order: future i runs
download_image_with_retry on records[i] (line 255). Workers run
concurrently, so `fsOf i` is the file-system state worker i observes and
`scriptOf i` the network behavior for that record. -/
def downloadResultsInOrder (downloadDir month : String)
    (records : List (String × String)) (scriptOf : Nat → String → Nat → NetResult)
    (fsOf : Nat → Fs) (maxRetries : Nat) : List DlResult :=
  records.enum.map (fun p =>
    download_image_with_retry downloadDir p.2.1 p.2.2 month (scriptOf p.1)
      maxRetries (fsOf p.1))

/-- Observable effect of one download_images call: `retval` is the value
returned to the Python caller (the function body has no return statement,
so it returns None); `outcomes` are the future results read at line 261 in
completion order; `failLog` the names logged as failed at line 263. -/
structure ImagesRun where
  retval : Unit
  outcomes : List (Bool × String)
  failLog : List String
deriving Repr, DecidableEq

/-- download_images (lines 240-263). `completionOrder` is the order in
which concurrent.futures.as_completed yields the futures, given as indices
into the submission order; as_completed yields every submitted future
exactly once, so a run of the real code corresponds to a
`completionOrder` that is a permutation of range(len(records)). -/
def download_images (downloadDir month : String) (records : List (String × String))
    (scriptOf : Nat → String → Nat → NetResult) (fsOf : Nat → Fs) (maxRetries : Nat)
    (completionOrder : List Nat) : ImagesRun :=
  let rs := downloadResultsInOrder downloadDir month records scriptOf fsOf maxRetries
  let completed := (completionOrder.filterMap (fun i => rs[i]?)).map (fun r => r.outcome)
  ⟨(), completed, (completed.filter (fun o => !o.1)).map (fun o => o.2)⟩

/-! ## get_image_urls (lines 60-185) -/

/-- What happens on one detail page after its tab is opened (lines
119-165): either some exception is raised while rendering or resolving
(raised), or the download-selector chain of lines 126-143 completes and
yields the href of the first matching link, or no selector matched
(resolved none, in which case lines 145-162 append nothing). -/
inductive DetailStep where
  | raised
  | resolved (link : Option String)
deriving Repr, DecidableEq

/-- One thumbnail element of the listing together with the behavior of its
detail page:

* href: the value of get_attribute("href") (line 110); None makes line 112
  skip the item before any tab is opened;
* step: what happens once the tab for the detail page is opened;
* teardownOk: whether driver.close()/switch_to at lines 164-165 succeeds;
* handlerOk: whether the recovery cleanup inside the except handler
  (lines 170-172) succeeds, when that handler runs. An exception raised
  inside the handler propagates out of the for loop. -/
structure ItemOracle where
  href : Option String
  step : DetailStep
  teardownOk : Bool
  handlerOk : Bool
deriving Repr, DecidableEq

/-- The listing-selector loop of lines 89-101: each entry of `results` is
one selector of the ordered list at lines 83-87; none models a
TimeoutException from wait.until (caught, try the next selector), some l
models the elements found. The loop breaks at the first selector whose
result is non-empty (line 95); an empty result does not break. -/
def findThumbnails (results : List (Option (List ItemOracle))) : List ItemOracle :=
  match results with
  | [] => []
  | none :: rest => findThumbnails rest
  | some l :: rest => if l.isEmpty then findThumbnails rest else l

/-- The per-thumbnail loop of lines 108-173. Returns (records appended to
image_data, number of detail tabs opened, whether an exception escaped the
per-item except handler and aborted the loop). An item whose href is None
is skipped with no tab. If the main body raises (step = raised), the
except handler at lines 167-173 runs: when its own cleanup succeeds the
loop continues, otherwise the exception propagates and no further item is
processed. When the download-selector chain resolves, lines 145-162
append (full_image_name, image_url) before the teardown of lines 164-165,
so a teardown failure after a successful resolve keeps the record; that
failure is caught by the same handler. -/
def processItems : List ItemOracle → List (String × String) × Nat × Bool
  | [] => ([], 0, false)
  | o :: rest =>
      match o.href with
      | none => processItems rest
      | some u =>
          match o.step with
          | .raised =>
              if o.handlerOk then
                let t := processItems rest
                (t.1, t.2.1 + 1, t.2.2)
              else ([], 1, true)
          | .resolved link =>
              let appended :=
                match link with
                | some iu => [(fullImageNameS u iu, iu)]
                | none => []
              if o.teardownOk || o.handlerOk then
                let t := processItems rest
                (appended ++ t.1, t.2.1 + 1, t.2.2)
              else (appended, 1, true)

/-- The environment one get_image_urls call runs against:

* driverOk: setup_driver (line 72) succeeds; when it raises, the outer
  except catches it and driver stays None;
* archiveOk: driver.get(archive_url) (line 77) succeeds;
* selectorResults: the outcome of each listing selector, in order;
* quitOk: driver.quit() in the finally block (line 180) succeeds. -/
structure ScrapeOracle where
  driverOk : Bool
  archiveOk : Bool
  selectorResults : List (Option (List ItemOracle))
  quitOk : Bool
deriving Repr, DecidableEq

/-- Observable result of get_image_urls: the returned image_data list,
how many detail tabs were opened, whether a WebDriver was acquired,
whether driver.quit() was invoked in the finally block, and whether an
exception escaped to the caller. -/
structure ScrapeResult where
  records : List (String × String)
  detailRenders : Nat
  driverAcquired : Bool
  quitAttempted : Bool
  raisedToCaller : Bool
deriving Repr, DecidableEq

/-- get_image_urls (lines 60-185). Every failure path is absorbed: a
setup_driver or page-load failure is caught by the outer except (line 175)
and the accumulated image_data (still empty) is returned; an empty
thumbnail list returns [] at line 105; an abort of the thumbnail loop is
caught by the outer except with the records appended so far; the finally
block (lines 177-183) calls driver.quit() whenever a driver was acquired,
and a quit failure is itself caught at line 182, so the result of the
function never depends on quitOk. -/
def get_image_urls (o : ScrapeOracle) : ScrapeResult :=
  if !o.driverOk then ⟨[], 0, false, false, false⟩
  else if !o.archiveOk then ⟨[], 0, true, true, false⟩
  else
    let thumbs := findThumbnails o.selectorResults
    if thumbs.isEmpty then ⟨[], 0, true, true, false⟩
    else
      let t := processItems thumbs
      ⟨t.1, t.2.1, true, true, false⟩

/-! ## Helper lemmas -/

lemma fileExists_writeFile_self (fs : Fs) (p c : String) :
    fileExists (writeFile fs p c) p = true := by
  simp [fileExists, writeFile]

lemma attemptLoop_outcome_snd (n p : String) (s : Nat → NetResult) :
    ∀ (f a : Nat) (fs : Fs), (attemptLoop n p s a f fs).outcome.snd = n := by
  intro f
  induction f with
  | zero => intro a fs; rfl
  | succ k ih =>
      intro a fs
      by_cases hex : fileExists fs p = true
      · simp [attemptLoop, hex]
      · cases hs : s a with
        | fail e => simp [attemptLoop, hex, hs, ih]
        | body c => simp [attemptLoop, hex, hs]
        | interrupted w => simp [attemptLoop, hex, hs, ih]

lemma attemptLoop_of_fileExists (n p : String) (s : Nat → NetResult) (a f : Nat)
    (fs : Fs) (hf : 1 ≤ f) (hex : fileExists fs p = true) :
    attemptLoop n p s a f fs = ⟨(true, n), fs, 0⟩ := by
  cases f with
  | zero => exact absurd hf (by omega)
  | succ k => simp [attemptLoop, hex]

lemma attemptLoop_success_fileExists (n p : String) (s : Nat → NetResult) :
    ∀ (f a : Nat) (fs : Fs), (attemptLoop n p s a f fs).outcome.fst = true →
      fileExists (attemptLoop n p s a f fs).fs p = true := by
  intro f
  induction f with
  | zero => intro a fs h; simp [attemptLoop] at h
  | succ k ih =>
      intro a fs h
      by_cases hex : fileExists fs p = true
      · simp [attemptLoop, hex]
      · cases hs : s a with
        | fail e =>
            simp only [attemptLoop, hex, Bool.false_eq_true, if_false, hs] at h ⊢
            exact ih _ _ h
        | body c =>
            simp [attemptLoop, hex, hs, fileExists_writeFile_self]
        | interrupted w =>
            simp only [attemptLoop, hex, Bool.false_eq_true, if_false, hs] at h ⊢
            exact ih _ _ h

lemma attemptLoop_allFail (n p : String) (s : Nat → NetResult)
    (hfail : ∀ i, ∃ e, s i = NetResult.fail e) :
    ∀ (f a : Nat) (fs : Fs), fileExists fs p = false →
      attemptLoop n p s a f fs = ⟨(false, n), fs, f⟩ := by
  intro f
  induction f with
  | zero => intro a fs _; rfl
  | succ k ih =>
      intro a fs hne
      obtain ⟨e, he⟩ := hfail a
      simp [attemptLoop, hne, he, ih (a + 1) fs hne]

lemma filterMap_getElem_range {α : Type} (rs : List α) :
    (List.range rs.length).filterMap (fun i => rs[i]?) = rs := by
  induction rs with
  | nil => rfl
  | cons a t ih =>
      rw [List.length_cons, List.range_succ_eq_map, List.filterMap_cons]
      simp only [List.getElem?_cons_zero, List.filterMap_map]
      have hcomp : ((fun i => (a :: t)[i]?) ∘ Nat.succ) = fun i => t[i]? := by
        funext i
        simp
      rw [hcomp, ih]

/-- A listing selector yields no match when wait.until times out (none) or,
hypothetically, returns an empty element list. -/
def noMatch (x : Option (List ItemOracle)) : Bool :=
  match x with
  | none => true
  | some l => l.isEmpty

lemma findThumbnails_eq_nil (results : List (Option (List ItemOracle)))
    (h : ∀ x ∈ results, noMatch x = true) : findThumbnails results = [] := by
  induction results with
  | nil => rfl
  | cons r rest ih =>
      have hr : noMatch r = true := h r (List.mem_cons_self r rest)
      have hrest : ∀ x ∈ rest, noMatch x = true := fun x hx => h x (List.mem_cons_of_mem r hx)
      cases r with
      | none => simpa [findThumbnails] using ih hrest
      | some l =>
          simp only [noMatch] at hr
          simpa [findThumbnails, hr] using ih hrest

lemma findThumbnails_append_first (pre post : List (Option (List ItemOracle)))
    (l : List ItemOracle) (hpre : ∀ x ∈ pre, noMatch x = true) (hl : l ≠ []) :
    findThumbnails (pre ++ some l :: post) = l := by
  induction pre with
  | nil =>
      have : l.isEmpty = false := by
        cases l with
        | nil => exact absurd rfl hl
        | cons a t => rfl
      simp [findThumbnails, this]
  | cons r rest ih =>
      have hr : noMatch r = true := hpre r (List.mem_cons_self r rest)
      have hrest : ∀ x ∈ rest, noMatch x = true := fun x hx => hpre x (List.mem_cons_of_mem r hx)
      cases r with
      | none => simpa [findThumbnails] using ih hrest
      | some m =>
          simp only [noMatch] at hr
          simpa [findThumbnails, hr] using ih hrest

lemma get_image_urls_never_raises (o : ScrapeOracle) :
    (get_image_urls o).raisedToCaller = false := by
  obtain ⟨d, a, s, q⟩ := o
  cases d
  · rfl
  · cases a
    · rfl
    · cases hh : (findThumbnails s).isEmpty <;> simp [get_image_urls, hh]

/-! ## Claims -/

/-- Claim C1, counterexample. The claim states that a successful response is
streamed to a temporary file and then moved to the final target path, so
that no execution with an interrupted write leaves a partial file at the
final target path. The code opens the final path directly (line 222), so an
attempt whose streaming write raises after writing "PART" leaves exactly
"PART" at the final target path; the next attempt's existence check then
finds that partial file and the call returns success after a single network
attempt. -/
theorem c1_counterexample :
    readFile (download_image_with_retry "images" "a.jpg" "http://u" "m"
        (fun _ _ => NetResult.interrupted "PART") 3 emptyFs).fs "images/m/a.jpg" = some "PART"
    ∧ (download_image_with_retry "images" "a.jpg" "http://u" "m"
        (fun _ _ => NetResult.interrupted "PART") 3 emptyFs).outcome = (true, "a.jpg")
    ∧ (download_image_with_retry "images" "a.jpg" "http://u" "m"
        (fun _ _ => NetResult.interrupted "PART") 3 emptyFs).netAttempts = 1 :=
  ⟨rfl, by decide, by decide⟩

/-- Claim C1 (corrected): whenever an HTTP attempt returns a successful
response, the body is streamed directly to the final target path (there is
no temporary file); a fully streamed body leaves the complete content at
the final path and returns success after one network attempt, while an
interrupted write leaves the partially written content at the final target
path, where it can satisfy the existence check of a later attempt. -/
theorem c1_amended (downloadDir imageName imageUrl month c w : String)
    (script : String → Nat → NetResult) (maxRetries : Nat) (fs : Fs)
    (hne : fileExists fs (outputPathOf downloadDir month imageName) = false)
    (hmr : 1 ≤ maxRetries) :
    (script imageUrl 0 = NetResult.body c →
      download_image_with_retry downloadDir imageName imageUrl month script maxRetries fs
        = ⟨(true, imageName), writeFile fs (outputPathOf downloadDir month imageName) c, 1⟩)
    ∧ (script imageUrl 0 = NetResult.interrupted w →
      readFile (download_image_with_retry downloadDir imageName imageUrl month script
          maxRetries fs).fs (outputPathOf downloadDir month imageName) = some w) := by
  constructor
  · intro h0
    cases maxRetries with
    | zero => omega
    | succ k =>
        unfold download_image_with_retry
        simp [attemptLoop, hne, h0]
  · intro h0
    cases maxRetries with
    | zero => omega
    | succ k =>
        unfold download_image_with_retry
        cases k with
        | zero => simp [attemptLoop, hne, h0, readFile, writeFile]
        | succ k2 =>
            have hex := fileExists_writeFile_self fs
              (outputPathOf downloadDir month imageName) w
            simp [attemptLoop, hne, h0, hex, readFile, writeFile]

/-- Witness for c1_amended at a concrete input. -/
theorem c1_amended_witness :
    download_image_with_retry "images" "a.jpg" "http://u" "m"
        (fun _ _ => NetResult.body "DATA") 3 emptyFs
      = ⟨(true, "a.jpg"), writeFile emptyFs (outputPathOf "images" "m" "a.jpg") "DATA", 1⟩ :=
  (c1_amended "images" "a.jpg" "http://u" "m" "DATA" "W"
      (fun _ _ => NetResult.body "DATA") 3 emptyFs (by decide) (by omega)).1 rfl

/-- Claim C2, counterexample. The claim states that the failure outcome
records the number of attempts made and preserves the last observed error
as the outcome's last_error. The value download_image_with_retry returns
is the bare tuple (False, image_name) (line 238): two always-failing runs
that differ both in their error ("connection timeout" vs "HTTP 404") and
in their attempt count (3 vs 5) return identical outcomes, so the returned
outcome records neither the attempt count nor the last error. -/
theorem c2_counterexample :
    (download_image_with_retry "images" "a.jpg" "http://u" "m"
        (fun _ _ => NetResult.fail "connection timeout") 3 emptyFs).outcome
      = (download_image_with_retry "images" "a.jpg" "http://u" "m"
        (fun _ _ => NetResult.fail "HTTP 404") 5 emptyFs).outcome := by
  decide

/-- Claim C2 (corrected): for a record whose URL fails on every attempt and
whose target file never exists, download_image_with_retry issues exactly
max_retries network attempts (at least one, since max_retries is at least
one), leaves the file system unchanged, and returns the failure outcome
(False, image_name); the attempt count and the last error appear only in
the log, not in the returned outcome. -/
theorem c2_amended (downloadDir imageName imageUrl month : String)
    (script : String → Nat → NetResult) (errOf : Nat → String) (maxRetries : Nat) (fs : Fs)
    (hne : fileExists fs (outputPathOf downloadDir month imageName) = false)
    (hfail : ∀ i, script imageUrl i = NetResult.fail (errOf i))
    (hmr : 1 ≤ maxRetries) :
    download_image_with_retry downloadDir imageName imageUrl month script maxRetries fs
      = ⟨(false, imageName), fs, maxRetries⟩
    ∧ 1 ≤ (download_image_with_retry downloadDir imageName imageUrl month script
        maxRetries fs).netAttempts := by
  have h : download_image_with_retry downloadDir imageName imageUrl month script maxRetries fs
      = ⟨(false, imageName), fs, maxRetries⟩ :=
    attemptLoop_allFail imageName (outputPathOf downloadDir month imageName)
      (script imageUrl) (fun i => ⟨errOf i, hfail i⟩) maxRetries 0 fs hne
  rw [h]
  exact ⟨rfl, hmr⟩

/-- Witness for c2_amended at a concrete input. -/
theorem c2_amended_witness :
    download_image_with_retry "images" "a.jpg" "http://u" "m"
        (fun _ _ => NetResult.fail "boom") 3 emptyFs = ⟨(false, "a.jpg"), emptyFs, 3⟩
    ∧ 1 ≤ (download_image_with_retry "images" "a.jpg" "http://u" "m"
        (fun _ _ => NetResult.fail "boom") 3 emptyFs).netAttempts :=
  c2_amended "images" "a.jpg" "http://u" "m" (fun _ _ => NetResult.fail "boom")
    (fun _ => "boom") 3 emptyFs (by decide) (fun _ => rfl) (by omega)

/-- Claim C5 (confirmed): there is an execution in which one attempt raises
mid-stream after the target file has been partially written ("HALF" of the
"FULL" body), and the next attempt's existence check finds that file and
returns success: the call reports (True, name) with exactly one network
attempt ever issued, and the incomplete file is the final artifact on
disk. -/
theorem c5_truncated_file_accepted :
    (download_image_with_retry "images" "img1.jpg" "http://u" "202410"
        (fun _ i => if i = 0 then NetResult.interrupted "HALF" else NetResult.body "FULL")
        3 emptyFs).outcome = (true, "img1.jpg")
    ∧ (download_image_with_retry "images" "img1.jpg" "http://u" "202410"
        (fun _ i => if i = 0 then NetResult.interrupted "HALF" else NetResult.body "FULL")
        3 emptyFs).netAttempts = 1
    ∧ readFile (download_image_with_retry "images" "img1.jpg" "http://u" "202410"
        (fun _ i => if i = 0 then NetResult.interrupted "HALF" else NetResult.body "FULL")
        3 emptyFs).fs "images/202410/img1.jpg" = some "HALF" :=
  ⟨by decide, by decide, rfl⟩

/-- Claim C3, counterexample. The claim predicts that the derived name for
detail URL .../detail/abc123 and asset URL .../foo.png is a sanitized form
of detail_abc123 (the sanitized path component) with extension .png. The
code takes os.path.basename of the detail URL (its final path segment
only, line 150) before sanitizing, so the derived name is "abc123.png",
which differs from the sanitized path component "detail_abc123" with
".png" appended. -/
theorem c3_counterexample :
    full_image_name "https://bingwallpaper.anerg.com/detail/abc123".toList
        "https://www.bing.com/foo.png".toList = "abc123.png".toList
    ∧ full_image_name "https://bingwallpaper.anerg.com/detail/abc123".toList
        "https://www.bing.com/foo.png".toList
      ≠ sanitizeL "detail/abc123".toList ++ ".png".toList := by
  decide

/-- Claim C3 (corrected): for every detail URL and asset URL, the derived
file name equals the sanitized basename (final path segment, not the whole
path component) of the detail URL, with "/" and ":" replaced by "_", and
the extension of the asset URL appended, defaulting to ".jpg" when the
asset URL's basename has no extension; for a detail URL ending in
.../detail/abc123 and an asset URL ending in foo.png the derived name is
"abc123.png". -/
theorem c3_amended (d a : List Char) :
    full_image_name d a = sanitizeL (basenameL d) ++ image_ext a
    ∧ (splitextExtL (basenameL a) = [] →
      full_image_name d a = sanitizeL (basenameL d) ++ ".jpg".toList)
    ∧ full_image_name "https://bingwallpaper.anerg.com/detail/abc123".toList
        "https://www.bing.com/foo.png".toList = "abc123.png".toList := by
  refine ⟨rfl, ?_, by decide⟩
  intro h
  simp [full_image_name, clean_image_name, image_ext, h]

/-- Witness for c3_amended at a concrete input (an asset URL with no
extension falls back to ".jpg"). -/
theorem c3_amended_witness :
    full_image_name "https://h/detail/z".toList "https://h/img".toList
      = sanitizeL (basenameL "https://h/detail/z".toList) ++ ".jpg".toList :=
  (c3_amended "https://h/detail/z".toList "https://h/img".toList).2.1 (by decide)

/-- Claim C4 (confirmed): the download stage is idempotent and never
destructive. If the target file exists at the entry of the call (the check
at line 207 runs at the top of every attempt iteration), the call returns
success with zero network attempts and the file system is returned
unchanged. Consequently a second call for the same record after a first
successful call returns success with zero network attempts, under any
network behavior, and changes no file content. Moreover the existence
check is re-evaluated fresh at every attempt entry: after an interrupted
first write, the second attempt detects the file written meanwhile and
stops with only the one network attempt issued. -/
theorem c4_idempotent (downloadDir imageName url1 url2 month w : String)
    (s1 s2 : String → Nat → NetResult) (m1 m2 : Nat) (fs : Fs) :
    (1 ≤ m1 → fileExists fs (outputPathOf downloadDir month imageName) = true →
      download_image_with_retry downloadDir imageName url1 month s1 m1 fs
        = ⟨(true, imageName), fs, 0⟩)
    ∧ (1 ≤ m2 →
      (download_image_with_retry downloadDir imageName url1 month s1 m1 fs).outcome.fst = true →
      download_image_with_retry downloadDir imageName url2 month s2 m2
          ((download_image_with_retry downloadDir imageName url1 month s1 m1 fs).fs)
        = ⟨(true, imageName),
            (download_image_with_retry downloadDir imageName url1 month s1 m1 fs).fs, 0⟩)
    ∧ (2 ≤ m1 → fileExists fs (outputPathOf downloadDir month imageName) = false →
      s1 url1 0 = NetResult.interrupted w →
      (download_image_with_retry downloadDir imageName url1 month s1 m1 fs).netAttempts = 1
      ∧ (download_image_with_retry downloadDir imageName url1 month s1 m1 fs).outcome.fst
        = true) := by
  refine ⟨?_, ?_, ?_⟩
  · intro hm hex
    exact attemptLoop_of_fileExists imageName (outputPathOf downloadDir month imageName)
      (s1 url1) 0 m1 fs hm hex
  · intro hm hsucc
    have hex := attemptLoop_success_fileExists imageName
      (outputPathOf downloadDir month imageName) (s1 url1) m1 0 fs hsucc
    exact attemptLoop_of_fileExists imageName (outputPathOf downloadDir month imageName)
      (s2 url2) 0 m2 _ hm hex
  · intro hm hne h0
    cases m1 with
    | zero => omega
    | succ k =>
        cases k with
        | zero => omega
        | succ k2 =>
            have hex := fileExists_writeFile_self fs
              (outputPathOf downloadDir month imageName) w
            unfold download_image_with_retry
            simp [attemptLoop, hne, h0, hex]

/-- Witness for c4_idempotent at concrete inputs: a pre-existing file is
skipped with zero network attempts and an unchanged file system, and an
interrupted first write is detected by the second attempt. -/
theorem c4_idempotent_witness :
    download_image_with_retry "images" "a.jpg" "u1" "m" (fun _ _ => NetResult.fail "E") 3
        (writeFile emptyFs "images/m/a.jpg" "X")
      = ⟨(true, "a.jpg"), writeFile emptyFs "images/m/a.jpg" "X", 0⟩
    ∧ (download_image_with_retry "images" "a.jpg" "u1" "m"
        (fun _ _ => NetResult.interrupted "HALF") 3 emptyFs).netAttempts = 1 :=
  ⟨(c4_idempotent "images" "a.jpg" "u1" "u2" "m" "W" (fun _ _ => NetResult.fail "E")
      (fun _ _ => NetResult.fail "E") 3 3 (writeFile emptyFs "images/m/a.jpg" "X")).1
      (by omega) (by decide),
   ((c4_idempotent "images" "a.jpg" "u1" "u2" "m" "HALF"
      (fun _ _ => NetResult.interrupted "HALF") (fun _ _ => NetResult.fail "E") 3 3
      emptyFs).2.2 (by omega) (by decide) rfl).1⟩

/-- Claim C7, counterexample. The claim states that for every two distinct
detail URLs the derived names differ. Two detail URLs that differ only in
their host share a final path segment, and os.path.basename keeps only
that segment (line 150), so they derive identical names and target the
same file path. -/
theorem c7_counterexample :
    ("https://site-a.example/detail/x".toList ≠ "https://site-b.example/detail/x".toList)
    ∧ full_image_name "https://site-a.example/detail/x".toList
        "https://c.example/i.jpg".toList
      = full_image_name "https://site-b.example/detail/x".toList
        "https://c.example/i.jpg".toList := by
  decide

/-- Claim C7 (corrected): name derivation is a pure deterministic function
of the detail URL and the asset URL, but it is not unique per detail URL:
the derived name depends on the detail URL only through its basename
(final path segment), so two distinct detail URLs with the same basename
derive identical names, and two records in a run can target the same file
path. -/
theorem c7_amended (d1 d2 a1 a2 : List Char) :
    (d1 = d2 → a1 = a2 → full_image_name d1 a1 = full_image_name d2 a2)
    ∧ (basenameL d1 = basenameL d2 → full_image_name d1 a1 = full_image_name d2 a1)
    ∧ ∃ e1 e2 : List Char, e1 ≠ e2 ∧ full_image_name e1 a1 = full_image_name e2 a1 := by
  refine ⟨?_, ?_, ?_⟩
  · intro h1 h2
    rw [h1, h2]
  · intro h
    simp [full_image_name, clean_image_name, h]
  · exact ⟨['/', 'x'], ['x'], by decide, rfl⟩

/-- Witness for c7_amended at a concrete input. -/
theorem c7_amended_witness :
    full_image_name "/x".toList "i.jpg".toList = full_image_name "x".toList "i.jpg".toList :=
  (c7_amended "/x".toList "x".toList "i.jpg".toList "i.jpg".toList).2.1 (by decide)

/-- Claim C6, counterexample. The claim states that the download stage
returns exactly N DownloadOutcomes as one aggregate sequence. The Python
download_images has no return statement: it reads each future's result and
only logs failures, returning None to its caller. Two runs whose gathered
outcomes differ (one all-fail, one all-success) return the identical value
None, so the value returned to the caller carries no outcome sequence at
all. -/
theorem c6_counterexample :
    (download_images "images" "m" [("a.jpg", "u")] (fun _ _ _ => NetResult.fail "E")
        (fun _ => emptyFs) 3 [0]).retval
      = (download_images "images" "m" [("a.jpg", "u")] (fun _ _ _ => NetResult.body "C")
        (fun _ => emptyFs) 3 [0]).retval
    ∧ (download_images "images" "m" [("a.jpg", "u")] (fun _ _ _ => NetResult.fail "E")
        (fun _ => emptyFs) 3 [0]).outcomes
      ≠ (download_images "images" "m" [("a.jpg", "u")] (fun _ _ _ => NetResult.body "C")
        (fun _ => emptyFs) 3 [0]).outcomes :=
  ⟨rfl, by decide⟩

/-- Claim C6 (corrected): for every input list of N records and every
completion order of the worker pool (any permutation of the submitted
futures, covering every pool size), download_images gathers internally
exactly N outcomes, and the multiset of outcome names equals the multiset
of input record names (each outcome's name is its record's name, order not
preserved); however the gathered outcomes are only consumed for logging —
the function itself returns None, not the outcome sequence. -/
theorem c6_amended (downloadDir month : String) (records : List (String × String))
    (scriptOf : Nat → String → Nat → NetResult) (fsOf : Nat → Fs) (maxRetries : Nat)
    (order : List Nat) (hperm : order.Perm (List.range records.length)) :
    (download_images downloadDir month records scriptOf fsOf maxRetries order).outcomes.length
      = records.length
    ∧ ((download_images downloadDir month records scriptOf fsOf maxRetries order).outcomes.map
        Prod.snd).Perm (records.map Prod.fst)
    ∧ (download_images downloadDir month records scriptOf fsOf maxRetries order).retval
      = () := by
  have hlen : (downloadResultsInOrder downloadDir month records scriptOf fsOf
      maxRetries).length = records.length := by
    simp [downloadResultsInOrder]
  have hsel : (order.filterMap (fun i =>
        (downloadResultsInOrder downloadDir month records scriptOf fsOf maxRetries)[i]?)).Perm
      (downloadResultsInOrder downloadDir month records scriptOf fsOf maxRetries) := by
    have h1 := hperm.filterMap (fun i =>
      (downloadResultsInOrder downloadDir month records scriptOf fsOf maxRetries)[i]?)
    rw [← hlen, filterMap_getElem_range] at h1
    exact h1
  have houts : (download_images downloadDir month records scriptOf fsOf maxRetries
        order).outcomes
      = (order.filterMap (fun i =>
          (downloadResultsInOrder downloadDir month records scriptOf fsOf maxRetries)[i]?)).map
        (fun r => r.outcome) := rfl
  have hpermOut : ((download_images downloadDir month records scriptOf fsOf maxRetries
        order).outcomes).Perm
      ((downloadResultsInOrder downloadDir month records scriptOf fsOf maxRetries).map
        (fun r => r.outcome)) := by
    rw [houts]
    exact hsel.map (fun r => r.outcome)
  have hnames : ((downloadResultsInOrder downloadDir month records scriptOf fsOf
        maxRetries).map (fun r => r.outcome)).map Prod.snd
      = records.map Prod.fst := by
    unfold downloadResultsInOrder
    rw [List.map_map, List.map_map]
    have hfun : ((Prod.snd ∘ fun r => r.outcome) ∘
          (fun p : Nat × String × String =>
            download_image_with_retry downloadDir p.2.1 p.2.2 month (scriptOf p.1)
              maxRetries (fsOf p.1)))
        = fun p : Nat × String × String => p.2.1 := by
      funext p
      exact attemptLoop_outcome_snd p.2.1 (outputPathOf downloadDir month p.2.1)
        (scriptOf p.1 p.2.2) maxRetries 0 (fsOf p.1)
    rw [hfun]
    rw [show (fun p : Nat × String × String => p.2.1)
        = (Prod.fst ∘ Prod.snd : Nat × String × String → String) from rfl]
    rw [← List.map_map, List.enum_map_snd]
  refine ⟨?_, ?_, rfl⟩
  · rw [hpermOut.length_eq, List.length_map, hlen]
  · have h2 := hpermOut.map Prod.snd
    rw [hnames] at h2
    exact h2

/-- Witness for c6_amended at a concrete input (two records completing in
reversed order). -/
theorem c6_amended_witness :
    (download_images "images" "m" [("a.jpg", "u"), ("b.jpg", "v")]
        (fun _ _ _ => NetResult.fail "E") (fun _ => emptyFs) 3 [1, 0]).outcomes.length = 2
    ∧ ((download_images "images" "m" [("a.jpg", "u"), ("b.jpg", "v")]
        (fun _ _ _ => NetResult.fail "E") (fun _ => emptyFs) 3 [1, 0]).outcomes.map
        Prod.snd).Perm ([("a.jpg", "u"), ("b.jpg", "v")].map Prod.fst)
    ∧ (download_images "images" "m" [("a.jpg", "u"), ("b.jpg", "v")]
        (fun _ _ _ => NetResult.fail "E") (fun _ => emptyFs) 3 [1, 0]).retval = () :=
  c6_amended "images" "m" [("a.jpg", "u"), ("b.jpg", "v")] (fun _ _ _ => NetResult.fail "E")
    (fun _ => emptyFs) 3 [1, 0] (by decide)

/-- Claim C8 (confirmed): the listing stage tries its selectors in order
and returns the element list of the first selector that yields at least
one match, never merging later selectors with earlier ones; and when no
selector yields a match (each one times out or finds nothing), the scrape
returns an empty record list without raising and without opening a single
detail tab. -/
theorem c8_first_match_listing (pre post : List (Option (List ItemOracle)))
    (l : List ItemOracle) (o : ScrapeOracle) :
    ((∀ x ∈ pre, noMatch x = true) → l ≠ [] →
      findThumbnails (pre ++ some l :: post) = l)
    ∧ ((∀ x ∈ o.selectorResults, noMatch x = true) →
      (get_image_urls o).records = [] ∧ (get_image_urls o).detailRenders = 0
      ∧ (get_image_urls o).raisedToCaller = false) := by
  constructor
  · exact fun hpre hl => findThumbnails_append_first pre post l hpre hl
  · intro hall
    have hnil := findThumbnails_eq_nil o.selectorResults hall
    obtain ⟨d, a, s, q⟩ := o
    cases d
    · exact ⟨rfl, rfl, rfl⟩
    · cases a
      · exact ⟨rfl, rfl, rfl⟩
      · simp only at hnil
        simp [get_image_urls, hnil]

/-- Witness for c8_first_match_listing at a concrete input: the first two
selectors yield no match (a timeout and an empty hit list) and the third
yields one thumbnail; a scrape whose selectors all fail returns no records
and opens no tab. -/
theorem c8_first_match_listing_witness :
    findThumbnails [none, some [],
        some [⟨some "https://s/detail/b", DetailStep.resolved (some "https://s/b.jpg"),
          true, true⟩]]
      = [⟨some "https://s/detail/b", DetailStep.resolved (some "https://s/b.jpg"),
          true, true⟩]
    ∧ ((get_image_urls ⟨true, true, [none, some []], true⟩).records = []
      ∧ (get_image_urls ⟨true, true, [none, some []], true⟩).detailRenders = 0
      ∧ (get_image_urls ⟨true, true, [none, some []], true⟩).raisedToCaller = false) :=
  ⟨(c8_first_match_listing [none, some []] []
      [⟨some "https://s/detail/b", DetailStep.resolved (some "https://s/b.jpg"), true, true⟩]
      ⟨true, true, [none, some []], true⟩).1 (by decide) (by decide),
   (c8_first_match_listing [none, some []] []
      [⟨some "https://s/detail/b", DetailStep.resolved (some "https://s/b.jpg"), true, true⟩]
      ⟨true, true, [none, some []], true⟩).2 (by decide)⟩

/-- Claim C9, counterexample. The claim states that every per-item failure
(including a context-teardown error) is caught and only skips that item,
letting the remaining links proceed. When the per-item except handler's
own cleanup (driver.close / switch_to at lines 170-172) raises, the
exception propagates out of the for loop: in a two-thumbnail run where the
first item raises and its handler cleanup also fails, the second item is
never processed even though, processed alone, it would contribute a
record; only one tab is ever opened. The call still returns (an empty
record list) rather than raising. -/
theorem c9_counterexample :
    get_image_urls ⟨true, true,
        [some [⟨some "https://s/detail/a", DetailStep.raised, true, false⟩,
          ⟨some "https://s/detail/b", DetailStep.resolved (some "https://s/b.jpg"),
            true, true⟩]], true⟩
      = ⟨[], 1, true, true, false⟩
    ∧ processItems [⟨some "https://s/detail/b",
        DetailStep.resolved (some "https://s/b.jpg"), true, true⟩]
      = ([("b.jpg", "https://s/b.jpg")], 1, false) := by
  decide

/-- Claim C9 (corrected): a per-item failure on one detail link is caught
and the item is skipped with the remaining links unaffected, provided the
except handler's own cleanup succeeds; when the handler cleanup itself
raises, the remaining links are abandoned. In every case the caller of
get_image_urls never receives a raised error — the function always returns
its (possibly empty) accumulated record list. -/
theorem c9_amended (it : ItemOracle) (rest : List ItemOracle) (u : String)
    (o : ScrapeOracle) (hhref : it.href = some u) (hstep : it.step = DetailStep.raised)
    (hh : it.handlerOk = true) :
    processItems (it :: rest)
      = ((processItems rest).1, (processItems rest).2.1 + 1, (processItems rest).2.2)
    ∧ (get_image_urls o).raisedToCaller = false := by
  constructor
  · simp [processItems, hhref, hstep, hh]
  · exact get_image_urls_never_raises o

/-- Witness for c9_amended at a concrete input. -/
theorem c9_amended_witness :
    processItems (⟨some "https://s/detail/a", DetailStep.raised, true, true⟩ ::
        [⟨some "https://s/detail/b", DetailStep.resolved (some "https://s/b.jpg"),
          true, true⟩])
      = ((processItems [⟨some "https://s/detail/b",
            DetailStep.resolved (some "https://s/b.jpg"), true, true⟩]).1,
         (processItems [⟨some "https://s/detail/b",
            DetailStep.resolved (some "https://s/b.jpg"), true, true⟩]).2.1 + 1,
         (processItems [⟨some "https://s/detail/b",
            DetailStep.resolved (some "https://s/b.jpg"), true, true⟩]).2.2)
    ∧ (get_image_urls ⟨true, true, [], true⟩).raisedToCaller = false :=
  c9_amended ⟨some "https://s/detail/a", DetailStep.raised, true, true⟩
    [⟨some "https://s/detail/b", DetailStep.resolved (some "https://s/b.jpg"), true, true⟩]
    "https://s/detail/a" ⟨true, true, [], true⟩ rfl rfl rfl

/-- Claim C10 (confirmed): on every exit path of get_image_urls the
WebDriver is released exactly when it was acquired (quit is attempted in
the finally block whenever setup_driver succeeded, whatever the archive
load, the selectors or the per-item loop did), the function never raises
to its caller, and a failure of driver.quit itself is absorbed: the entire
result is independent of whether quit succeeds. -/
theorem c10_driver_cleanup (o : ScrapeOracle) :
    (get_image_urls o).driverAcquired = o.driverOk
    ∧ (get_image_urls o).quitAttempted = o.driverOk
    ∧ (get_image_urls o).raisedToCaller = false
    ∧ ∀ b : Bool,
        get_image_urls ⟨o.driverOk, o.archiveOk, o.selectorResults, b⟩ = get_image_urls o := by
  obtain ⟨d, a, s, q⟩ := o
  refine ⟨?_, ?_, get_image_urls_never_raises ⟨d, a, s, q⟩, fun b => rfl⟩
  · cases d
    · rfl
    · cases a
      · rfl
      · cases hh : (findThumbnails s).isEmpty <;> simp [get_image_urls, hh]
  · cases d
    · rfl
    · cases a
      · rfl
      · cases hh : (findThumbnails s).isEmpty <;> simp [get_image_urls, hh]
